import Mathlib

/-!
Verification of the TraceApi `api-core` passport service.

The development shallowly embeds the Go source under `internal/core/service`
(`passport_service.go`), `internal/platform/storage/postgres`
(`passport_repository.go`) and `internal/platform/storage/s3`
(`blob_store.go`).  Machine-level library calls (SHA-256, hex encoding,
UTF-8 byte extraction) are implemented directly; external collaborators
(the JSON parser of `encoding/json`, the compiled category schemas,
`uuid.Parse`) are passed in as explicit function parameters, mirroring the
dependency injection of the Go service.
-/

/-- A JSON value, the shape produced by `encoding/json` unmarshalling.
Objects keep their fields as an ordered association list. -/
inductive Json where
  | null : Json
  | bool (b : Bool) : Json
  | num (n : Int) : Json
  | str (s : String) : Json
  | arr (elems : List Json) : Json
  | obj (fields : List (String × Json)) : Json

/-- Byte strings are lists of naturals below 256 (Go `[]byte`). -/
abbrev Bytes := List Nat

/-- UTF-8 encoding of a single code point. -/
def utf8Char (c : Char) : Bytes :=
  let n := c.toNat
  if n < 0x80 then [n]
  else if n < 0x800 then [0xC0 ||| (n >>> 6), 0x80 ||| (n &&& 0x3F)]
  else if n < 0x10000 then
    [0xE0 ||| (n >>> 12), 0x80 ||| ((n >>> 6) &&& 0x3F), 0x80 ||| (n &&& 0x3F)]
  else
    [0xF0 ||| (n >>> 18), 0x80 ||| ((n >>> 12) &&& 0x3F),
     0x80 ||| ((n >>> 6) &&& 0x3F), 0x80 ||| (n &&& 0x3F)]

/-- The UTF-8 bytes of a string, as Go's `[]byte(s)` conversion. -/
def strBytes (s : String) : Bytes :=
  (s.data.map utf8Char).flatten

/-! ## SHA-256 (`crypto/sha256`) and hex encoding (`encoding/hex`) -/

/-- 2^32, the modulus of 32-bit word arithmetic. -/
def w32 : Nat := 4294967296

/-- Right rotation of a 32-bit word. -/
def rotr32 (k x : Nat) : Nat :=
  ((x >>> k) ||| (x <<< (32 - k))) % w32

/-- The 64 SHA-256 round constants of FIPS 180-4, in decimal. -/
def sha256K : List Nat :=
  [1116352408, 1899447441, 3049323471, 3921009573, 961987163,
   1508970993, 2453635748, 2870763221, 3624381080, 310598401,
   607225278, 1426881987, 1925078388, 2162078206, 2614888103,
   3248222580, 3835390401, 4022224774, 264347078, 604807628,
   770255983, 1249150122, 1555081692, 1996064986, 2554220882,
   2821834349, 2952996808, 3210313671, 3336571891, 3584528711,
   113926993, 338241895, 666307205, 773529912, 1294757372,
   1396182291, 1695183700, 1986661051, 2177026350, 2456956037,
   2730485921, 2820302411, 3259730800, 3345764771, 3516065817,
   3600352804, 4094571909, 275423344, 430227734, 506948616,
   659060556, 883997877, 958139571, 1322822218, 1537002063,
   1747873779, 1955562222, 2024104815, 2227730452, 2361852424,
   2428436474, 2756734187, 3204031479, 3329325298]

/-- The SHA-256 initial hash state, in decimal. -/
def sha256H0 : List Nat :=
  [1779033703, 3144134277, 1013904242, 2773480762,
   1359893119, 2600822924, 528734635, 1541459225]

/-- Big-endian bytes of a natural, `k` bytes wide. -/
def beBytes (k n : Nat) : Bytes :=
  match k with
  | 0 => []
  | Nat.succ k => beBytes k (n >>> 8) ++ [n % 256]

/-- SHA-256 padding: append `0x80`, zeros, and the 64-bit bit length. -/
def sha256Pad (msg : Bytes) : Bytes :=
  let bitLen := msg.length * 8
  let zeros := (64 + 56 - (msg.length + 1) % 64) % 64
  msg ++ [0x80] ++ List.replicate zeros 0 ++ beBytes 8 bitLen

/-- Split a byte string into 64-byte blocks (fuelled recursion). -/
def toBlocksAux : Nat → Bytes → List Bytes
  | 0, _ => []
  | _, [] => []
  | Nat.succ fuel, xs => xs.take 64 :: toBlocksAux fuel (xs.drop 64)

def toBlocks (xs : Bytes) : List Bytes :=
  toBlocksAux xs.length xs

/-- Pack a block's bytes into big-endian 32-bit words. -/
def wordsOf : Bytes → List Nat
  | b0 :: b1 :: b2 :: b3 :: rest =>
    (((b0 <<< 24) ||| (b1 <<< 16) ||| (b2 <<< 8) ||| b3) % w32) :: wordsOf rest
  | _ => []

/-- Message-schedule extension step; `acc` holds the schedule reversed. -/
def schedAux : Nat → List Nat → List Nat
  | 0, acc => acc
  | Nat.succ k, acc =>
    let g := fun i => acc.getD i 0
    let s0 := (rotr32 7 (g 14)) ^^^ (rotr32 18 (g 14)) ^^^ ((g 14) >>> 3)
    let s1 := (rotr32 17 (g 1)) ^^^ (rotr32 19 (g 1)) ^^^ ((g 1) >>> 10)
    schedAux k (((g 15 + s0 + g 6 + s1) % w32) :: acc)

/-- The 64-word message schedule of one block. -/
def sched (block : Bytes) : List Nat :=
  (schedAux 48 (wordsOf block).reverse).reverse

/-- One SHA-256 compression round on the 8-word working state. -/
def sha256Round (st : List Nat) (ki wi : Nat) : List Nat :=
  match st with
  | [a, b, c, d, e, f, g, h] =>
    let s1 := (rotr32 6 e) ^^^ (rotr32 11 e) ^^^ (rotr32 25 e)
    let ch := (e &&& f) ^^^ ((e ^^^ (w32 - 1)) &&& g)
    let t1 := (h + s1 + ch + ki + wi) % w32
    let s0 := (rotr32 2 a) ^^^ (rotr32 13 a) ^^^ (rotr32 22 a)
    let mj := (a &&& b) ^^^ (a &&& c) ^^^ (b &&& c)
    let t2 := (s0 + mj) % w32
    [(t1 + t2) % w32, a, b, c, (d + t1) % w32, e, f, g]
  | other => other

/-- Run the 64 rounds of one block over the working state. -/
def sha256Rounds : List Nat → List Nat → List Nat → List Nat
  | st, k :: ks, x :: xs => sha256Rounds (sha256Round st k x) ks xs
  | st, _, _ => st

/-- Compress one block into the running hash state. -/
def compress (h : List Nat) (block : Bytes) : List Nat :=
  let st := sha256Rounds h sha256K (sched block)
  (h.zip st).map (fun p => (p.1 + p.2) % w32)

/-- The SHA-256 digest of a byte string, as 32 bytes. -/
def sha256 (msg : Bytes) : Bytes :=
  let hFinal := ((toBlocks (sha256Pad msg)).foldl compress sha256H0)
  (hFinal.map (beBytes 4)).flatten

/-- One lowercase hex digit. -/
def hexDigit (n : Nat) : Char :=
  if n < 10 then Char.ofNat (48 + n) else Char.ofNat (87 + n)

/-- Lowercase hex encoding of a byte string, as `hex.EncodeToString`. -/
def hexEncode (bs : Bytes) : String :=
  String.mk ((bs.map (fun b => [hexDigit (b / 16), hexDigit (b % 16)])).flatten)

/-! ## Domain model (`internal/core/domain`) -/

/-- `domain.StatusDraft` -/
def StatusDraft : String := "DRAFT"

/-- `domain.StatusPublished` -/
def StatusPublished : String := "PUBLISHED"

/-- `domain.StatusRevoked` -/
def StatusRevoked : String := "REVOKED"

/-- `domain.ViewContextRestricted` -/
def ViewContextRestricted : String := "restricted"

/-- `domain.ViewContextPublic` -/
def ViewContextPublic : String := "public"

/-- `domain.CategoryBattery` -/
def CategoryBattery : String := "BATTERY_INDUSTRIAL"

/-- `domain.CategoryTextile` -/
def CategoryTextile : String := "TEXTILE_APPAREL"

/-- The sentinel errors of `internal/core/domain` (`errors.go`); the service
wraps them with `fmt.Errorf("%w: ...")`, which `errors.Is` unwraps, so the
embedding keeps only the sentinel. -/
inductive DomainError where
  | notFound : DomainError
  | conflict : DomainError
  | invalidInput : DomainError
  | alreadyPublished : DomainError
  | internal : DomainError
deriving DecidableEq

/-- `domain.Passport`: the master record.  `attributes` holds the parsed
tree of the raw JSON payload (`json.RawMessage`); identifiers, categories
and statuses are strings exactly as in the Go struct. -/
structure Passport where
  id : String
  productCategory : String
  status : String
  manufacturerID : String
  manufacturerName : String
  attributes : Json
  createdAt : Nat
  updatedAt : Nat
  publishedAt : Option Nat
  immutabilityHash : String
  storageLocation : String

/-! ## Ports and system state

The service receives its collaborators by injection.  The durable
repository is abstracted exactly as `ports.PassportRepository`; `save`
and `update` return `none` on a store error.  The library collaborators
(`encoding/json` parsing, the compiled category schemas of the embedded
schema files, and `uuid.Parse`) are fields of `ServiceCfg`, standing for
the per-process state built in `NewPassportService`. -/

structure Repo (δ : Type) where
  getByID : δ → String → Option Passport
  save : δ → Passport → Option δ
  update : δ → Passport → Option δ

/-- Process-wide service configuration: the compiled schema validators
(`s.schemas`), the restricted-field table (`s.restrictedFields`), and the
library functions `json.Unmarshal` / `uuid.Parse` that the service calls. -/
structure ServiceCfg where
  schemas : String → Option (Json → Bool)
  restrictedFields : String → List String
  jsonParse : Bytes → Option Json
  uuidParse : String → Option String

/-- The mutable world visible to the service: the durable store, the
idempotency store (fingerprint → passport-id string, `idempotency:` keys
in Redis) and the passport cache (`passport:<id>` keys, holding the
serialized record; serialization is lossless so entries are kept as
`Passport` values). -/
structure SysState (δ : Type) where
  db : δ
  idem : List (String × String)
  pcache : List (String × Passport)

/-- The externally visible calls a service operation performs, in order. -/
inductive Effect where
  | repoSave (p : Passport) : Effect
  | repoUpdate (p : Passport) : Effect
  | cacheSet (key : String) (value : Passport) : Effect
  | cacheDelete (key : String) : Effect
  | idemSet (fingerprint id : String) : Effect
  | blobUpload (bucket key : String) (data : Bytes) : Effect
  | eventPublish (channel tenantID passportID : String) : Effect

/-- Return value of a service operation: the Go return pair plus the
post-state and the trace of side-effecting calls. -/
structure StepResult (δ : Type) where
  ret : Except DomainError Passport
  state : SysState δ
  effects : List Effect

/-! ## The passport service (`internal/core/service/passport_service.go`) -/

/-- `filterAttributes`: shallow removal of the restricted top-level fields
of the record's category from the attribute tree.  If the category has no
restricted fields, or the attributes do not unmarshal into a JSON object,
the record is returned unchanged. -/
def filterAttributes (cfg : ServiceCfg) (passport : Passport) : Passport :=
  let restricted := cfg.restrictedFields passport.productCategory
  if restricted.isEmpty then passport
  else
    match passport.attributes with
    | Json.obj fields =>
      { passport with
        attributes := Json.obj (fields.filter (fun kv => !restricted.contains kv.1)) }
    | _ => passport

/-- `GetPassport`: fast-path cache lookup, durable fallback with an
asynchronous cache fill of the full unredacted record, then the
ownership/view-context redaction gate.  The view context and viewer
tenant id are the values the auth middleware put into the request
context. -/
def GetPassport (cfg : ServiceCfg) (R : Repo δ) (s : SysState δ)
    (viewContext viewerTenantID : String) (id : String) : StepResult δ :=
  let cacheKey := "passport:" ++ id
  let step1 : Option Passport × SysState δ × List Effect :=
    match s.pcache.lookup cacheKey with
    | some p => (some p, s, [])
    | none =>
      match R.getByID s.db id with
      | none => (none, s, [])
      | some p =>
        (some p, { s with pcache := (cacheKey, p) :: s.pcache },
         [Effect.cacheSet cacheKey p])
  match step1 with
  | (none, s1, eff) => ⟨Except.error DomainError.notFound, s1, eff⟩
  | (some passport, s1, eff) =>
    let isOwner := viewerTenantID == passport.manufacturerID
    if viewContext != ViewContextRestricted || !isOwner then
      ⟨Except.ok (filterAttributes cfg passport), s1, eff⟩
    else
      ⟨Except.ok passport, s1, eff⟩

/-- The idempotency fingerprint of `CreatePassport`: the hex SHA-256 of
the manufacturer id, category and raw payload bytes written to one hasher
with no separators. -/
def payloadFingerprint (manufacturerID category : String) (payload : Bytes) : String :=
  hexEncode (sha256 (strBytes manufacturerID ++ strBytes category ++ payload))

/-- The fall-through tail of `CreatePassport` (steps 2–6): schema
validation, entity construction, durable save, idempotency registration
and the creation event. -/
def createPassportNew (cfg : ServiceCfg) (R : Repo δ) (s : SysState δ)
    (manufacturerID manufacturerName category : String) (payload : Bytes)
    (newID : String) (now : Nat) (payloadHash : String) : StepResult δ :=
  match cfg.schemas category with
  | none => ⟨Except.error DomainError.invalidInput, s, []⟩
  | some validate =>
    match cfg.jsonParse payload with
    | none => ⟨Except.error DomainError.invalidInput, s, []⟩
    | some parsed =>
      if validate parsed then
        let passport : Passport :=
          { id := newID, productCategory := category, status := StatusDraft,
            manufacturerID := manufacturerID, manufacturerName := manufacturerName,
            attributes := parsed, createdAt := now, updatedAt := now,
            publishedAt := none, immutabilityHash := "", storageLocation := "" }
        match R.save s.db passport with
        | none => ⟨Except.error DomainError.internal, s, [Effect.repoSave passport]⟩
        | some db1 =>
          ⟨Except.ok passport,
           { db := db1, idem := (payloadHash, newID) :: s.idem, pcache := s.pcache },
           [Effect.repoSave passport, Effect.idemSet payloadHash newID,
            Effect.eventPublish "events:passport_created" manufacturerID newID]⟩
      else ⟨Except.error DomainError.invalidInput, s, []⟩

/-- `CreatePassport`: idempotency lookup first, then validation and
creation.  `newID` and `now` stand for `uuid.New()` and `time.Now()`. -/
def CreatePassport (cfg : ServiceCfg) (R : Repo δ) (s : SysState δ)
    (manufacturerID manufacturerName category : String) (payload : Bytes)
    (newID : String) (now : Nat) : StepResult δ :=
  let payloadHash := payloadFingerprint manufacturerID category payload
  match s.idem.lookup payloadHash with
  | some existingIDStr =>
    match cfg.uuidParse existingIDStr with
    | some uid =>
      match R.getByID s.db uid with
      | some existingPassport => ⟨Except.ok existingPassport, s, []⟩
      | none =>
        createPassportNew cfg R s manufacturerID manufacturerName category payload
          newID now payloadHash
    | none =>
      createPassportNew cfg R s manufacturerID manufacturerName category payload
        newID now payloadHash
  | none =>
    createPassportNew cfg R s manufacturerID manufacturerName category payload
      newID now payloadHash

/-! ## JSON serialization (`encoding/json` marshalling of the tree) -/

/-- Escape a string for JSON output (quotation marks and backslashes;
the payloads under test contain no control characters). -/
def jsonEscape (s : String) : String :=
  String.mk ((s.data.map (fun c =>
    if c = '"' then ['\\', '"']
    else if c = '\\' then ['\\', '\\']
    else [c])).flatten)

mutual

/-- Compact serialization of a JSON tree, Go `json.Marshal` style. -/
def serializeJson : Json → String
  | Json.null => "null"
  | Json.bool b => if b then "true" else "false"
  | Json.num n => toString n
  | Json.str s => "\"" ++ jsonEscape s ++ "\""
  | Json.arr elems => "[" ++ serializeArr elems ++ "]"
  | Json.obj fields => "\x7b" ++ serializeObj fields ++ "\x7d"

def serializeArr : List Json → String
  | [] => ""
  | [x] => serializeJson x
  | x :: xs => serializeJson x ++ "," ++ serializeArr xs

def serializeObj : List (String × Json) → String
  | [] => ""
  | [kv] => "\"" ++ jsonEscape kv.1 ++ "\":" ++ serializeJson kv.2
  | kv :: kvs => "\"" ++ jsonEscape kv.1 ++ "\":" ++ serializeJson kv.2 ++ "," ++ serializeObj kvs

end

/-! ## Blob store (`internal/platform/storage/s3/blob_store.go`) -/

/-- `UploadJSON`: puts the object under the bucket and key with a
write-once retention request and returns the `s3://bucket/key` locator.
The network call is modelled as succeeding. -/
def UploadJSON (bucket key : String) (_data : Bytes) : Option String :=
  some ("s3://" ++ bucket ++ "/" ++ key)

/-- `PublishPassport`: fetch from the durable tier, reject an already
published record, hash and upload the serialized attributes, set the
publish fields, persist, and invalidate the cache entry. -/
def PublishPassport (R : Repo δ) (s : SysState δ) (id : String) (now : Nat) :
    StepResult δ :=
  match R.getByID s.db id with
  | none => ⟨Except.error DomainError.notFound, s, []⟩
  | some passport =>
    if passport.status == StatusPublished then
      ⟨Except.error DomainError.alreadyPublished, s, []⟩
    else
      let payloadBytes := strBytes (serializeJson passport.attributes)
      let hashString := hexEncode (sha256 payloadBytes)
      let key := "passports/" ++ passport.id ++ ".json"
      match UploadJSON "passports" key payloadBytes with
      | none => ⟨Except.error DomainError.internal, s, []⟩
      | some s3URL =>
        let updated : Passport :=
          { passport with
            status := StatusPublished, immutabilityHash := hashString,
            storageLocation := s3URL, publishedAt := some now }
        match R.update s.db updated with
        | none =>
          ⟨Except.error DomainError.internal, s,
           [Effect.blobUpload "passports" key payloadBytes]⟩
        | some db1 =>
          let cacheKey := "passport:" ++ id
          ⟨Except.ok updated,
           { db := db1, idem := s.idem,
             pcache := s.pcache.filter (fun kv => kv.1 != cacheKey) },
           [Effect.blobUpload "passports" key payloadBytes,
            Effect.repoUpdate updated, Effect.cacheDelete cacheKey]⟩

/-! ## Postgres repository (`internal/platform/storage/postgres/passport_repository.go`)

The `passports` table is a list of rows with the columns of the deploy
schema.  `Save` is `INSERT ... ON CONFLICT (id) DO UPDATE`, `Update` is a
plain `UPDATE ... WHERE id` (no affected-row check), and `GetByID` scans
exactly the ten columns its SELECT names — `storage_location` is not
among them. -/

structure PgRow where
  id : String
  product_category : String
  status : String
  manufacturer_id : String
  manufacturer_name : String
  attributes : Json
  created_at : Nat
  updated_at : Nat
  published_at : Option Nat
  immutability_hash : String
  storage_location : String

abbrev PgDb := List PgRow

/-- The full row of a passport, as bound by `Save`'s INSERT. -/
def pgRowOf (p : Passport) : PgRow :=
  { id := p.id, product_category := p.productCategory, status := p.status,
    manufacturer_id := p.manufacturerID, manufacturer_name := p.manufacturerName,
    attributes := p.attributes, created_at := p.createdAt,
    updated_at := p.updatedAt, published_at := p.publishedAt,
    immutability_hash := p.immutabilityHash,
    storage_location := p.storageLocation }

/-- The column assignments of `Save`'s ON CONFLICT DO UPDATE clause /
`Update`'s SET clause applied to an existing row.  `Update` writes
`time.Now()` into `updated_at`; `now` stands for that clock read. -/
def pgSetRow (p : Passport) (upd_at : Nat) (r : PgRow) : PgRow :=
  { r with
    status := p.status, attributes := p.attributes,
    updated_at := upd_at, published_at := p.publishedAt,
    immutability_hash := p.immutabilityHash,
    storage_location := p.storageLocation }

namespace Postgres

/-- `Save`: insert the row, or on an id conflict update the mutable
columns of the existing row. -/
def Save (db : PgDb) (p : Passport) : Option PgDb :=
  if db.any (fun r => r.id == p.id) then
    some (db.map (fun r => if r.id == p.id then pgSetRow p p.updatedAt r else r))
  else
    some (db ++ [pgRowOf p])

/-- `Update`: set status, hash, publish timestamp, locator, wall-clock
`updated_at` and attributes on the matching row. -/
def Update (now : Nat) (db : PgDb) (p : Passport) : Option PgDb :=
  some (db.map (fun r => if r.id == p.id then pgSetRow p now r else r))

/-- `GetByID`: SELECT id, product_category, status, manufacturer_id,
manufacturer_name, attributes, created_at, updated_at, published_at,
immutability_hash WHERE id.  The Go struct's `StorageLocation` is never
scanned and keeps its zero value. -/
def GetByID (db : PgDb) (id : String) : Option Passport :=
  match db.find? (fun r => r.id == id) with
  | none => none
  | some r =>
    some { id := r.id, productCategory := r.product_category,
           status := r.status, manufacturerID := r.manufacturer_id,
           manufacturerName := r.manufacturer_name,
           attributes := r.attributes, createdAt := r.created_at,
           updatedAt := r.updated_at, publishedAt := r.published_at,
           immutabilityHash := r.immutability_hash,
           storageLocation := "" }

end Postgres

/-- The Postgres-backed instance of the repository port; `now` is the
wall clock `Update` reads. -/
def pgRepo (now : Nat) : Repo PgDb :=
  { getByID := Postgres.GetByID,
    save := Postgres.Save,
    update := Postgres.Update now }

/-- An abstract in-memory instance of the repository port (an id-keyed
map with the port's contract), used to exercise the service alone. -/
def mapRepo : Repo (List (String × Passport)) :=
  { getByID := fun db id => db.lookup id,
    save := fun db p => some ((p.id, p) :: db),
    update := fun db p =>
      some (db.map (fun kv => if kv.1 == p.id then (p.id, p) else kv)) }

/-! ## Concrete fixtures used to exercise the model -/

/-- A concrete service configuration: the battery schema accepts JSON
objects and restricts `disassemblyInstructions` (as in the service's
filtering tests); the textile category is left without a compiled
schema; `uuid.Parse` rejects the empty string; `json.Unmarshal`
recognizes the two payloads `null` and the empty object. -/
def testCfg : ServiceCfg :=
  { schemas := fun c =>
      if c == CategoryBattery then
        some (fun j => match j with | Json.obj _ => true | _ => false)
      else none,
    restrictedFields := fun c =>
      if c == CategoryBattery then ["disassemblyInstructions"] else [],
    jsonParse := fun bs =>
      if bs == strBytes "null" then some Json.null
      else if bs == [0x7b, 0x7d] then some (Json.obj [])
      else none,
    uuidParse := fun sid => if sid == "" then none else some sid }

/-- Attribute payload with one public and one restricted top-level
field; the restricted name also occurs nested below top level. -/
def attrsFull : Json :=
  Json.obj
    [("batteryModel", Json.str "Test"),
     ("disassemblyInstructions", Json.obj [("secret", Json.str "data")]),
     ("doc", Json.obj [("disassemblyInstructions", Json.str "nested")])]

/-- A draft battery passport owned by `mfg-1`. -/
def pDraft : Passport :=
  { id := "p1", productCategory := CategoryBattery, status := StatusDraft,
    manufacturerID := "mfg-1", manufacturerName := "Acme",
    attributes := attrsFull, createdAt := 0, updatedAt := 0,
    publishedAt := none, immutabilityHash := "", storageLocation := "" }

/-- A state whose durable tier holds only the draft passport. -/
def stDraft : SysState (List (String × Passport)) :=
  { db := [("p1", pDraft)], idem := [], pcache := [] }

/-- A published battery passport. -/
def pPublished : Passport :=
  { pDraft with
    id := "p2", status := StatusPublished, immutabilityHash := "deadbeef",
    storageLocation := "s3://passports/passports/p2.json", publishedAt := some 3 }

/-- A state whose durable tier holds only the published passport. -/
def stPublished : SysState (List (String × Passport)) :=
  { db := [("p2", pPublished)], idem := [], pcache := [] }

/-- A revoked battery passport. -/
def pRevoked : Passport :=
  { pDraft with id := "p3", status := StatusRevoked }

/-- A state whose durable tier holds only the revoked passport. -/
def stRevoked : SysState (List (String × Passport)) :=
  { db := [("p3", pRevoked)], idem := [], pcache := [] }

/-- The empty system state. -/
def stEmpty : SysState (List (String × Passport)) :=
  { db := [], idem := [], pcache := [] }

/-- A state where the draft passport is registered under its creation
fingerprint. -/
def stIdem : SysState (List (String × Passport)) :=
  { db := [("p1", pDraft)],
    idem := [(payloadFingerprint "mfg-1" CategoryBattery [0x7b, 0x7d], "p1")],
    pcache := [] }

/-- A state where the draft passport is registered under the fingerprint
of the triple ("mfg-a", battery category, empty-object payload). -/
def stCollide : SysState (List (String × Passport)) :=
  { db := [("p1", pDraft)],
    idem := [(payloadFingerprint "mfg-a" CategoryBattery [0x7b, 0x7d], "p1")],
    pcache := [] }

/-- A table row whose `storage_location` column is populated. -/
def pgRowPub : PgRow :=
  { id := "p9", product_category := CategoryBattery, status := StatusPublished,
    manufacturer_id := "mfg-1", manufacturer_name := "Acme",
    attributes := Json.obj [], created_at := 0, updated_at := 1,
    published_at := some 2, immutability_hash := "abc",
    storage_location := "s3://passports/passports/p9.json" }

/-- The passport `GetByID` reads back from that row: every column except
the unselected `storage_location`. -/
def pgReadBack : Passport :=
  { id := "p9", productCategory := CategoryBattery, status := StatusPublished,
    manufacturerID := "mfg-1", manufacturerName := "Acme",
    attributes := Json.obj [], createdAt := 0, updatedAt := 1,
    publishedAt := some 2, immutabilityHash := "abc", storageLocation := "" }

/-! ## Shared reduction lemmas -/

/-- Reduction of `GetPassport`'s return value once the retrieved record
is known: the response is the record, filtered unless the context is
restricted and the viewer owns it. -/
theorem getPassport_ret {δ : Type} (cfg : ServiceCfg) (R : Repo δ)
    (s : SysState δ) (vc vt id : String) (p : Passport)
    (hretrieve :
      s.pcache.lookup ("passport:" ++ id) = some p ∨
        (s.pcache.lookup ("passport:" ++ id) = none ∧ R.getByID s.db id = some p)) :
    (GetPassport cfg R s vc vt id).ret =
      (if vc != ViewContextRestricted || !(vt == p.manufacturerID)
       then Except.ok (filterAttributes cfg p) else Except.ok p) := by
  rcases hretrieve with h | ⟨h1, h2⟩
  · simp only [GetPassport, h]
    split <;> rfl
  · simp only [GetPassport, h1, h2]
    split <;> rfl

/-- The top-level fields of a filtered record, when the attributes form
a JSON object: exactly the restricted keys are dropped. -/
theorem filterAttributes_obj (cfg : ServiceCfg) (p : Passport) (fields : List (String × Json))
    (hf : p.attributes = Json.obj fields) :
    (filterAttributes cfg p).attributes =
      Json.obj (fields.filter
        (fun kv => !(cfg.restrictedFields p.productCategory).contains kv.1)) := by
  unfold filterAttributes
  rw [hf]
  by_cases hemp : (cfg.restrictedFields p.productCategory).isEmpty
  · rw [List.isEmpty_iff] at hemp
    simp [hemp, hf]
  · simp [hemp, hf]

/-- The SHA-256 implementation matches the standard test vectors. -/
theorem sha256_test_vectors :
    hexEncode (sha256 (strBytes "abc"))
      = "ba7816bf8f01cfea414140de5dae2223b00361a396177a9cb410ff61f20015ad" ∧
    hexEncode (sha256 [])
      = "e3b0c44298fc1c149afbf4c8996fb92427ae41e4649b934ca495991b7852b855" := by
  constructor <;> decide

/-- `filterAttributes` touches only the attribute tree; the storage
locator passes through unchanged. -/
theorem filterAttributes_storageLocation (cfg : ServiceCfg) (p : Passport) :
    (filterAttributes cfg p).storageLocation = p.storageLocation := by
  simp only [filterAttributes]
  split <;> first | rfl | (split <;> rfl)

/-- Rows produced by the SET clause of an UPDATE (or conflict update)
carry the passport's storage locator. -/
theorem find_pgSetRow (q : Passport) (u : Nat) :
    ∀ (rows : PgDb) (r : PgRow),
      ((rows.map (fun row => if row.id == q.id then pgSetRow q u row else row)).find?
          (fun row => row.id == q.id)) = some r →
      r.storage_location = q.storageLocation := by
  intro rows
  induction rows with
  | nil => intro r h; cases h
  | cons head tail ih =>
    intro r h
    rw [List.map_cons, List.find?_cons] at h
    by_cases hid : (head.id == q.id) = true
    · rw [if_pos hid] at h
      have hid2 : ((pgSetRow q u head).id == q.id) = true := hid
      rw [hid2] at h
      simp only [cond_true] at h
      cases h
      rfl
    · rw [Bool.not_eq_true] at hid
      rw [if_neg (by rw [hid]; exact Bool.false_ne_true)] at h
      rw [hid] at h
      simp only [cond_false] at h
      exact ih r h

/-- A freshly inserted row carries the passport's storage locator:
when no existing row matches the id, `find?` lands on the appended
row. -/
theorem find_pgInsert (q : Passport) :
    ∀ (rows : PgDb), (rows.any (fun r => r.id == q.id)) = false →
      ∀ r, ((rows ++ [pgRowOf q]).find? (fun row => row.id == q.id)) = some r →
        r.storage_location = q.storageLocation := by
  intro rows
  induction rows with
  | nil =>
    intro _ r h
    rw [List.nil_append, List.find?_cons] at h
    have hid : ((pgRowOf q).id == q.id) = true := by
      simp [pgRowOf]
    rw [hid] at h
    simp only [cond_true] at h
    cases h
    rfl
  | cons head tail ih =>
    intro hany r h
    rw [List.any_cons, Bool.or_eq_false_iff] at hany
    rw [List.cons_append, List.find?_cons, hany.1] at h
    simp only [cond_false] at h
    exact ih hany.2 r h

/-! ## Claims -/

/-- C1: on a read, if the view context is restricted and the viewer is
the record's manufacturer, `GetPassport` returns the attribute payload
unredacted; otherwise it removes exactly the restricted top-level keys
of the record's category, leaving all other keys — and every nested
occurrence of a restricted name — unchanged, and leaves non-object
payloads untouched. -/
theorem C1_getPassport_redaction {δ : Type} (cfg : ServiceCfg) (R : Repo δ)
    (s : SysState δ) (viewContext viewerTenantID id : String) (p : Passport)
    (hretrieve :
      s.pcache.lookup ("passport:" ++ id) = some p ∨
        (s.pcache.lookup ("passport:" ++ id) = none ∧ R.getByID s.db id = some p)) :
    ((viewContext = ViewContextRestricted ∧ viewerTenantID = p.manufacturerID) →
        (GetPassport cfg R s viewContext viewerTenantID id).ret = Except.ok p) ∧
    ((viewContext ≠ ViewContextRestricted ∨ viewerTenantID ≠ p.manufacturerID) →
        (GetPassport cfg R s viewContext viewerTenantID id).ret
            = Except.ok (filterAttributes cfg p) ∧
        (∀ fields, p.attributes = Json.obj fields →
            (filterAttributes cfg p).attributes
              = Json.obj (fields.filter
                  (fun kv => !(cfg.restrictedFields p.productCategory).contains kv.1))) ∧
        ((∀ fields, p.attributes ≠ Json.obj fields) → filterAttributes cfg p = p)) := by
  constructor
  · rintro ⟨hvc, hvt⟩
    rw [getPassport_ret cfg R s _ _ _ p hretrieve]
    subst hvc hvt
    simp
  · intro hcond
    refine ⟨?_, fun fields hf => filterAttributes_obj cfg p fields hf, ?_⟩
    · rw [getPassport_ret cfg R s _ _ _ p hretrieve]
      rcases hcond with h | h
      · simp [h]
      · simp [h]
    · intro hno
      unfold filterAttributes
      split
      · next x fields heq => exact absurd heq (hno fields)
      · simp

/-- Witness for C1 at a concrete public read of the draft battery
passport. -/
theorem C1_witness :
    ((stDraft.pcache.lookup ("passport:" ++ "p1") = some pDraft ∨
        (stDraft.pcache.lookup ("passport:" ++ "p1") = none ∧
         mapRepo.getByID stDraft.db "p1" = some pDraft)) ∧
     (ViewContextPublic ≠ ViewContextRestricted ∨ "anon" ≠ pDraft.manufacturerID)) ∧
    ((GetPassport testCfg mapRepo stDraft ViewContextPublic "anon" "p1").ret
        = Except.ok (filterAttributes testCfg pDraft) ∧
     (∀ fields, pDraft.attributes = Json.obj fields →
        (filterAttributes testCfg pDraft).attributes
          = Json.obj (fields.filter
              (fun kv => !(testCfg.restrictedFields pDraft.productCategory).contains kv.1))) ∧
     ((∀ fields, pDraft.attributes ≠ Json.obj fields) →
        filterAttributes testCfg pDraft = pDraft)) := by
  refine ⟨⟨Or.inr ⟨rfl, rfl⟩, Or.inl (by decide)⟩, ?_⟩
  exact (C1_getPassport_redaction testCfg mapRepo stDraft ViewContextPublic "anon" "p1"
      pDraft (Or.inr ⟨rfl, rfl⟩)).2 (Or.inl (by decide))

/-- C2: `GetPassport` never writes to the durable tier; its only cache
write is the cache fill after a durable fetch, and the value written is
the record exactly as the durable tier returned it — before redaction —
while the response on either path is the redaction of the retrieved
record. -/
theorem C2_cache_stores_unredacted {δ : Type} (cfg : ServiceCfg) (R : Repo δ)
    (s : SysState δ) (viewContext viewerTenantID id : String) :
    (∀ p, Effect.repoSave p ∉ (GetPassport cfg R s viewContext viewerTenantID id).effects) ∧
    (∀ p, Effect.repoUpdate p ∉ (GetPassport cfg R s viewContext viewerTenantID id).effects) ∧
    (GetPassport cfg R s viewContext viewerTenantID id).state.db = s.db ∧
    (∀ key v, Effect.cacheSet key v ∈ (GetPassport cfg R s viewContext viewerTenantID id).effects →
        key = "passport:" ++ id ∧
        s.pcache.lookup ("passport:" ++ id) = none ∧
        R.getByID s.db id = some v) ∧
    (∀ q, (GetPassport cfg R s viewContext viewerTenantID id).ret = Except.ok q →
        ∃ p, (s.pcache.lookup ("passport:" ++ id) = some p ∨ R.getByID s.db id = some p) ∧
          q = (if viewContext != ViewContextRestricted || !(viewerTenantID == p.manufacturerID)
               then filterAttributes cfg p else p)) := by
  cases hc : s.pcache.lookup ("passport:" ++ id) with
  | some p =>
    have hred : GetPassport cfg R s viewContext viewerTenantID id =
        ⟨if viewContext != ViewContextRestricted || !(viewerTenantID == p.manufacturerID)
          then Except.ok (filterAttributes cfg p) else Except.ok p, s, []⟩ := by
      simp only [GetPassport, hc]
      split <;> rfl
    rw [hred]
    refine ⟨by simp, by simp, rfl, by simp, ?_⟩
    intro q hq
    refine ⟨p, Or.inl rfl, ?_⟩
    by_cases hcond :
        (viewContext != ViewContextRestricted || !(viewerTenantID == p.manufacturerID)) = true
    · simp only [hcond, if_true] at hq ⊢
      exact (Except.ok.inj hq).symm
    · rw [Bool.not_eq_true] at hcond
      simp only [hcond, Bool.false_eq_true, if_false] at hq ⊢
      exact (Except.ok.inj hq).symm
  | none =>
    cases hg : R.getByID s.db id with
    | none =>
      have hred : GetPassport cfg R s viewContext viewerTenantID id =
          ⟨Except.error DomainError.notFound, s, []⟩ := by
        simp only [GetPassport, hc, hg]
      rw [hred]
      exact ⟨by simp, by simp, rfl, by simp, fun q hq => by cases hq⟩
    | some p =>
      have hred : GetPassport cfg R s viewContext viewerTenantID id =
          ⟨if viewContext != ViewContextRestricted || !(viewerTenantID == p.manufacturerID)
            then Except.ok (filterAttributes cfg p) else Except.ok p,
           { s with pcache := ("passport:" ++ id, p) :: s.pcache },
           [Effect.cacheSet ("passport:" ++ id) p]⟩ := by
        simp only [GetPassport, hc, hg]
        split <;> rfl
      rw [hred]
      refine ⟨by simp, by simp, rfl, ?_, ?_⟩
      · intro key v hmem
        rw [List.mem_singleton] at hmem
        cases hmem
        exact ⟨rfl, rfl, rfl⟩
      · intro q hq
        refine ⟨p, Or.inr rfl, ?_⟩
        by_cases hcond :
            (viewContext != ViewContextRestricted || !(viewerTenantID == p.manufacturerID)) = true
        · simp only [hcond, if_true] at hq ⊢
          exact (Except.ok.inj hq).symm
        · rw [Bool.not_eq_true] at hcond
          simp only [hcond, Bool.false_eq_true, if_false] at hq ⊢
          exact (Except.ok.inj hq).symm

/-- Witness for C2 at a concrete cache-miss read: the cache fill stores
the unredacted draft record. -/
theorem C2_witness :
    (∀ key v,
        Effect.cacheSet key v ∈ (GetPassport testCfg mapRepo stDraft ViewContextPublic "anon" "p1").effects →
        key = "passport:" ++ "p1" ∧
        stDraft.pcache.lookup ("passport:" ++ "p1") = none ∧
        mapRepo.getByID stDraft.db "p1" = some v) ∧
    (∀ q, (GetPassport testCfg mapRepo stDraft ViewContextPublic "anon" "p1").ret = Except.ok q →
        ∃ p, (stDraft.pcache.lookup ("passport:" ++ "p1") = some p ∨
                mapRepo.getByID stDraft.db "p1" = some p) ∧
          q = (if ViewContextPublic != ViewContextRestricted || !("anon" == p.manufacturerID)
               then filterAttributes testCfg p else p)) :=
  ⟨(C2_cache_stores_unredacted testCfg mapRepo stDraft ViewContextPublic "anon" "p1").2.2.2.1,
   (C2_cache_stores_unredacted testCfg mapRepo stDraft ViewContextPublic "anon" "p1").2.2.2.2⟩

/-- C3: publishing a record that is not yet published — with the durable
fetch, blob upload and durable update succeeding — returns it with status
Published, with `ImmutabilityHash` the lowercase hex SHA-256 of the
serialized attribute payload, with exactly those hashed bytes uploaded
under the key `passports/<id>.json`, with `StorageLocation` the locator
the blob store returned, and with the publish timestamp set. -/
theorem C3_publish_success {δ : Type} (R : Repo δ) (s : SysState δ)
    (id : String) (now : Nat) (p : Passport)
    (hget : R.getByID s.db id = some p)
    (hstatus : p.status ≠ StatusPublished)
    (hupd : ∀ q, (R.update s.db q).isSome) :
    ∃ q, (PublishPassport R s id now).ret = Except.ok q ∧
      q.status = StatusPublished ∧
      q.immutabilityHash = hexEncode (sha256 (strBytes (serializeJson p.attributes))) ∧
      Effect.blobUpload "passports" ("passports/" ++ p.id ++ ".json")
          (strBytes (serializeJson p.attributes)) ∈ (PublishPassport R s id now).effects ∧
      UploadJSON "passports" ("passports/" ++ p.id ++ ".json")
          (strBytes (serializeJson p.attributes)) = some q.storageLocation ∧
      q.publishedAt = some now := by
  have hb : (p.status == StatusPublished) = false := by
    rw [beq_eq_false_iff_ne]
    exact hstatus
  simp only [PublishPassport, hget, hb, Bool.false_eq_true, if_false, UploadJSON]
  split
  · next db1 heq =>
    exact absurd heq (Option.isSome_iff_ne_none.mp (hupd _))
  · next db1 heq =>
    exact ⟨_, rfl, rfl, rfl, by simp, rfl, rfl⟩

/-- Witness for C3: publishing the concrete draft passport. -/
theorem C3_witness :
    (mapRepo.getByID stDraft.db "p1" = some pDraft ∧
     pDraft.status ≠ StatusPublished ∧
     (∀ q, (mapRepo.update stDraft.db q).isSome)) ∧
    (∃ q, (PublishPassport mapRepo stDraft "p1" 7).ret = Except.ok q ∧
      q.status = StatusPublished ∧
      q.immutabilityHash = hexEncode (sha256 (strBytes (serializeJson pDraft.attributes))) ∧
      Effect.blobUpload "passports" ("passports/" ++ pDraft.id ++ ".json")
          (strBytes (serializeJson pDraft.attributes)) ∈ (PublishPassport mapRepo stDraft "p1" 7).effects ∧
      UploadJSON "passports" ("passports/" ++ pDraft.id ++ ".json")
          (strBytes (serializeJson pDraft.attributes)) = some q.storageLocation ∧
      q.publishedAt = some 7) :=
  ⟨⟨rfl, by decide, fun _ => rfl⟩,
   C3_publish_success mapRepo stDraft "p1" 7 pDraft rfl (by decide) (fun _ => rfl)⟩

/-- C4: publishing an already published record returns the
AlreadyPublished error and performs no side effects: no blob upload, no
durable update, no cache invalidation, and the stored record — hash,
locator and timestamp included — is unchanged. -/
theorem C4_publish_already_published {δ : Type} (R : Repo δ) (s : SysState δ)
    (id : String) (now : Nat) (p : Passport)
    (hget : R.getByID s.db id = some p)
    (hpub : p.status = StatusPublished) :
    (PublishPassport R s id now).ret = Except.error DomainError.alreadyPublished ∧
    (PublishPassport R s id now).state = s ∧
    (PublishPassport R s id now).effects = [] ∧
    R.getByID (PublishPassport R s id now).state.db id = some p := by
  have hb : (p.status == StatusPublished) = true := by
    rw [beq_iff_eq]
    exact hpub
  simp [PublishPassport, hget, hb]

/-- Witness for C4: re-publishing the concrete published passport. -/
theorem C4_witness :
    (mapRepo.getByID stPublished.db "p2" = some pPublished ∧
     pPublished.status = StatusPublished) ∧
    ((PublishPassport mapRepo stPublished "p2" 9).ret
        = Except.error DomainError.alreadyPublished ∧
     (PublishPassport mapRepo stPublished "p2" 9).state = stPublished ∧
     (PublishPassport mapRepo stPublished "p2" 9).effects = [] ∧
     mapRepo.getByID (PublishPassport mapRepo stPublished "p2" 9).state.db "p2"
        = some pPublished) :=
  ⟨⟨rfl, rfl⟩, C4_publish_already_published mapRepo stPublished "p2" 9 pPublished rfl rfl⟩

/-- C5 counterexample: `PublishPassport` checks only for the Published
status, so it transitions the concrete Revoked record to Published — a
Revoked → Published transition the claim rules out. -/
theorem C5_counterexample :
    pRevoked.status = StatusRevoked ∧
    ∃ q, (PublishPassport mapRepo stRevoked "p3" 5).ret = Except.ok q ∧
      q.status = StatusPublished :=
  ⟨rfl, ⟨_, rfl, rfl⟩⟩

/-- C5 amended: `PublishPassport` guards only against records already
Published: any fetched record whose status is not Published — Revoked
included — is transitioned to Published when the durable update
succeeds, and Published remains terminal for re-publication. -/
theorem C5_amended_publish_gate {δ : Type} (R : Repo δ) (s : SysState δ)
    (id : String) (now : Nat) (p : Passport)
    (hget : R.getByID s.db id = some p) :
    (p.status = StatusPublished →
        (PublishPassport R s id now).ret = Except.error DomainError.alreadyPublished ∧
        (PublishPassport R s id now).state = s ∧
        (PublishPassport R s id now).effects = []) ∧
    (p.status ≠ StatusPublished → (∀ q, (R.update s.db q).isSome) →
        ∃ q, (PublishPassport R s id now).ret = Except.ok q ∧
          q.status = StatusPublished) := by
  constructor
  · intro hpub
    have hb : (p.status == StatusPublished) = true := by
      rw [beq_iff_eq]
      exact hpub
    simp [PublishPassport, hget, hb]
  · intro hstatus hupd
    have hb : (p.status == StatusPublished) = false := by
      rw [beq_eq_false_iff_ne]
      exact hstatus
    simp only [PublishPassport, hget, hb, Bool.false_eq_true, if_false, UploadJSON]
    split
    · next db1 heq => exact absurd heq (Option.isSome_iff_ne_none.mp (hupd _))
    · exact ⟨_, rfl, rfl⟩

/-- Witness for the amended C5 at the concrete revoked record. -/
theorem C5_witness :
    (mapRepo.getByID stRevoked.db "p3" = some pRevoked ∧
     pRevoked.status ≠ StatusPublished ∧
     (∀ q, (mapRepo.update stRevoked.db q).isSome)) ∧
    ((pRevoked.status = StatusPublished →
        (PublishPassport mapRepo stRevoked "p3" 5).ret
            = Except.error DomainError.alreadyPublished ∧
        (PublishPassport mapRepo stRevoked "p3" 5).state = stRevoked ∧
        (PublishPassport mapRepo stRevoked "p3" 5).effects = []) ∧
     (pRevoked.status ≠ StatusPublished →
        (∀ q, (mapRepo.update stRevoked.db q).isSome) →
        ∃ q, (PublishPassport mapRepo stRevoked "p3" 5).ret = Except.ok q ∧
          q.status = StatusPublished)) :=
  ⟨⟨rfl, by decide, fun _ => rfl⟩,
   C5_amended_publish_gate mapRepo stRevoked "p3" 5 pRevoked rfl⟩

/-- C6: when the idempotency lookup does not resolve to an existing
record, an unknown category, malformed JSON, or a schema violation makes
`CreatePassport` return the InvalidInput error with no durable save and
no other side effect. -/
theorem C6_create_invalid_input {δ : Type} (cfg : ServiceCfg) (R : Repo δ)
    (s : SysState δ) (manufacturerID manufacturerName category : String)
    (payload : Bytes) (newID : String) (now : Nat)
    (hmiss :
      s.idem.lookup (payloadFingerprint manufacturerID category payload) = none ∨
      (∃ v, s.idem.lookup (payloadFingerprint manufacturerID category payload) = some v ∧
        (cfg.uuidParse v = none ∨
         (∃ uid, cfg.uuidParse v = some uid ∧ R.getByID s.db uid = none))))
    (hbad :
      cfg.schemas category = none ∨
      (∃ validate, cfg.schemas category = some validate ∧
        (cfg.jsonParse payload = none ∨
         (∃ parsed, cfg.jsonParse payload = some parsed ∧ validate parsed = false)))) :
    (CreatePassport cfg R s manufacturerID manufacturerName category payload newID now).ret
        = Except.error DomainError.invalidInput ∧
    (CreatePassport cfg R s manufacturerID manufacturerName category payload newID now).state
        = s ∧
    (CreatePassport cfg R s manufacturerID manufacturerName category payload newID now).effects
        = [] := by
  have hstep :
      CreatePassport cfg R s manufacturerID manufacturerName category payload newID now
        = createPassportNew cfg R s manufacturerID manufacturerName category payload
            newID now (payloadFingerprint manufacturerID category payload) := by
    rcases hmiss with h | ⟨v, hv, hrest⟩
    · simp only [CreatePassport, h]
    · rcases hrest with hparse | ⟨uid, hu, hget⟩
      · simp only [CreatePassport, hv, hparse]
      · simp only [CreatePassport, hv, hu, hget]
  rw [hstep]
  rcases hbad with h | ⟨validate, hval, hrest⟩
  · simp [createPassportNew, h]
  · rcases hrest with hparse | ⟨parsed, hp, hfalse⟩
    · simp [createPassportNew, hval, hparse]
    · simp [createPassportNew, hval, hp, hfalse]

/-- Witness for C6: a payload that parses to JSON `null` fails the
battery schema, on the empty state. -/
theorem C6_witness :
    (stEmpty.idem.lookup
        (payloadFingerprint "mfg-1" CategoryBattery (strBytes "null")) = none ∧
     (∃ validate, testCfg.schemas CategoryBattery = some validate ∧
       ∃ parsed, testCfg.jsonParse (strBytes "null") = some parsed ∧
         validate parsed = false)) ∧
    ((CreatePassport testCfg mapRepo stEmpty "mfg-1" "Acme" CategoryBattery
        (strBytes "null") "n1" 4).ret = Except.error DomainError.invalidInput ∧
     (CreatePassport testCfg mapRepo stEmpty "mfg-1" "Acme" CategoryBattery
        (strBytes "null") "n1" 4).state = stEmpty ∧
     (CreatePassport testCfg mapRepo stEmpty "mfg-1" "Acme" CategoryBattery
        (strBytes "null") "n1" 4).effects = []) :=
  ⟨⟨rfl, ⟨_, rfl, _, rfl, rfl⟩⟩,
   C6_create_invalid_input testCfg mapRepo stEmpty "mfg-1" "Acme" CategoryBattery
     (strBytes "null") "n1" 4 (Or.inl rfl)
     (Or.inr ⟨_, rfl, Or.inr ⟨_, rfl, rfl⟩⟩)⟩

/-- C7: a creation request whose fingerprint resolves — idempotency
entry found, stored id parses, record loads — returns the existing
record verbatim with no mutation: no save, no idempotency write, no
event, and an unchanged state. -/
theorem C7_create_idempotent_hit {δ : Type} (cfg : ServiceCfg) (R : Repo δ)
    (s : SysState δ) (manufacturerID manufacturerName category : String)
    (payload : Bytes) (newID : String) (now : Nat) (v uid : String) (p : Passport)
    (hhit : s.idem.lookup (payloadFingerprint manufacturerID category payload) = some v)
    (hparse : cfg.uuidParse v = some uid)
    (hload : R.getByID s.db uid = some p) :
    (CreatePassport cfg R s manufacturerID manufacturerName category payload newID now).ret
        = Except.ok p ∧
    (CreatePassport cfg R s manufacturerID manufacturerName category payload newID now).state
        = s ∧
    (CreatePassport cfg R s manufacturerID manufacturerName category payload newID now).effects
        = [] := by
  simp [CreatePassport, hhit, hparse, hload]

/-- Witness for C7: replaying the registered creation request returns
the stored draft with no effects. -/
theorem C7_witness :
    (stIdem.idem.lookup (payloadFingerprint "mfg-1" CategoryBattery [0x7b, 0x7d])
        = some "p1" ∧
     testCfg.uuidParse "p1" = some "p1" ∧
     mapRepo.getByID stIdem.db "p1" = some pDraft) ∧
    ((CreatePassport testCfg mapRepo stIdem "mfg-1" "Acme" CategoryBattery
        [0x7b, 0x7d] "n2" 6).ret = Except.ok pDraft ∧
     (CreatePassport testCfg mapRepo stIdem "mfg-1" "Acme" CategoryBattery
        [0x7b, 0x7d] "n2" 6).state = stIdem ∧
     (CreatePassport testCfg mapRepo stIdem "mfg-1" "Acme" CategoryBattery
        [0x7b, 0x7d] "n2" 6).effects = []) :=
  ⟨⟨rfl, rfl, rfl⟩,
   C7_create_idempotent_hit testCfg mapRepo stIdem "mfg-1" "Acme" CategoryBattery
     [0x7b, 0x7d] "n2" 6 "p1" "p1" pDraft rfl rfl rfl⟩

/-- C8 counterexample: the owner reading with a public view context has
the restricted top-level field removed — ownership alone does not bypass
redaction, contrary to the claim's "regardless of the request's view
context". -/
theorem C8_counterexample :
    "mfg-1" = pDraft.manufacturerID ∧
    ∃ q, (GetPassport testCfg mapRepo stDraft ViewContextPublic "mfg-1" "p1").ret
          = Except.ok q ∧
      q.attributes = Json.obj
        [("batteryModel", Json.str "Test"),
         ("doc", Json.obj [("disassemblyInstructions", Json.str "nested")])] :=
  ⟨rfl, ⟨_, rfl, rfl⟩⟩

/-- C8 amended: the viewer whose identity equals the record's
manufacturer receives the attribute payload with all fields present when
the view context is restricted (with a public context even the owner is
redacted). -/
theorem C8_amended_owner_full_access {δ : Type} (cfg : ServiceCfg) (R : Repo δ)
    (s : SysState δ) (viewerTenantID id : String) (p : Passport)
    (hretrieve :
      s.pcache.lookup ("passport:" ++ id) = some p ∨
        (s.pcache.lookup ("passport:" ++ id) = none ∧ R.getByID s.db id = some p))
    (howner : viewerTenantID = p.manufacturerID) :
    (GetPassport cfg R s ViewContextRestricted viewerTenantID id).ret = Except.ok p := by
  rw [getPassport_ret cfg R s _ _ _ p hretrieve]
  subst howner
  simp

/-- Witness for the amended C8: the owner's restricted-context read of
the draft record returns it unredacted. -/
theorem C8_witness :
    ((stDraft.pcache.lookup ("passport:" ++ "p1") = some pDraft ∨
        (stDraft.pcache.lookup ("passport:" ++ "p1") = none ∧
         mapRepo.getByID stDraft.db "p1" = some pDraft)) ∧
     "mfg-1" = pDraft.manufacturerID) ∧
    (GetPassport testCfg mapRepo stDraft ViewContextRestricted "mfg-1" "p1").ret
        = Except.ok pDraft :=
  ⟨⟨Or.inr ⟨rfl, rfl⟩, rfl⟩,
   C8_amended_owner_full_access testCfg mapRepo stDraft "mfg-1" "p1" pDraft
     (Or.inr ⟨rfl, rfl⟩) rfl⟩

/-- C9: the idempotency fingerprint hashes the bare concatenation of
owner, category and payload, so the distinct triples
("mfg-a", "BATTERY_INDUSTRIAL", "\x7b\x7d") and
("mfg-aB", "ATTERY_INDUSTRIAL", "\x7b\x7d") have byte-equal
concatenations, collide on the fingerprint, and the second request is
deduplicated against the record registered by the first. -/
theorem C9_fingerprint_concat_collision :
    ("mfg-a", CategoryBattery, ([0x7b, 0x7d] : Bytes))
      ≠ ("mfg-aB", "ATTERY_INDUSTRIAL", ([0x7b, 0x7d] : Bytes)) ∧
    strBytes "mfg-a" ++ strBytes CategoryBattery ++ [0x7b, 0x7d]
      = strBytes "mfg-aB" ++ strBytes "ATTERY_INDUSTRIAL" ++ [0x7b, 0x7d] ∧
    payloadFingerprint "mfg-a" CategoryBattery [0x7b, 0x7d]
      = payloadFingerprint "mfg-aB" "ATTERY_INDUSTRIAL" [0x7b, 0x7d] ∧
    (CreatePassport testCfg mapRepo stCollide "mfg-aB" "Other" "ATTERY_INDUSTRIAL"
        [0x7b, 0x7d] "n9" 9).ret = Except.ok pDraft ∧
    (CreatePassport testCfg mapRepo stCollide "mfg-aB" "Other" "ATTERY_INDUSTRIAL"
        [0x7b, 0x7d] "n9" 9).state = stCollide ∧
    (CreatePassport testCfg mapRepo stCollide "mfg-aB" "Other" "ATTERY_INDUSTRIAL"
        [0x7b, 0x7d] "n9" 9).effects = [] :=
  ⟨by decide, by decide, by decide, rfl, rfl, rfl⟩

/-- C10: the Postgres `GetByID` SELECT omits the `storage_location`
column, so every record it returns carries an empty storage locator —
including `GetPassport` responses on a cache miss through the Postgres
repository — even though `Save` and `Update` both persist the column. -/
theorem C10_getbyid_empty_storage_location :
    (∀ (db : PgDb) (id : String) (p : Passport),
        Postgres.GetByID db id = some p → p.storageLocation = "") ∧
    (∀ (db : PgDb) (q : Passport) (db2 : PgDb) (r : PgRow),
        Postgres.Save db q = some db2 →
        db2.find? (fun row => row.id == q.id) = some r →
        r.storage_location = q.storageLocation) ∧
    (∀ (now : Nat) (db : PgDb) (q : Passport) (db2 : PgDb) (r : PgRow),
        Postgres.Update now db q = some db2 →
        db2.find? (fun row => row.id == q.id) = some r →
        r.storage_location = q.storageLocation) ∧
    (∀ (cfg : ServiceCfg) (now : Nat) (s : SysState PgDb) (vc vt id : String)
        (q : Passport),
        s.pcache.lookup ("passport:" ++ id) = none →
        (GetPassport cfg (pgRepo now) s vc vt id).ret = Except.ok q →
        q.storageLocation = "") := by
  have hget : ∀ (db : PgDb) (id : String) (p : Passport),
      Postgres.GetByID db id = some p → p.storageLocation = "" := by
    intro db id p h
    unfold Postgres.GetByID at h
    cases hf : db.find? (fun r => r.id == id) with
    | none => rw [hf] at h; cases h
    | some r =>
      rw [hf] at h
      cases h
      rfl
  refine ⟨hget, ?_, ?_, ?_⟩
  · intro db q db2 r hsave hfind
    unfold Postgres.Save at hsave
    by_cases hany : (db.any (fun row => row.id == q.id)) = true
    · rw [if_pos hany] at hsave
      cases hsave
      exact find_pgSetRow q q.updatedAt db r hfind
    · rw [Bool.not_eq_true] at hany
      rw [if_neg (by rw [hany]; exact Bool.false_ne_true)] at hsave
      cases hsave
      exact find_pgInsert q db hany r hfind
  · intro now db q db2 r hupd hfind
    unfold Postgres.Update at hupd
    cases hupd
    exact find_pgSetRow q now db r hfind
  · intro cfg now s vc vt id q hc hret
    cases hg : Postgres.GetByID s.db id with
    | none =>
      have : (GetPassport cfg (pgRepo now) s vc vt id).ret
          = Except.error DomainError.notFound := by
        simp only [GetPassport, hc, pgRepo, hg]
      rw [this] at hret
      cases hret
    | some p =>
      have hr := getPassport_ret cfg (pgRepo now) s vc vt id p (Or.inr ⟨hc, hg⟩)
      rw [hr] at hret
      by_cases hcond : (vc != ViewContextRestricted || !(vt == p.manufacturerID)) = true
      · rw [if_pos hcond] at hret
        cases hret
        rw [filterAttributes_storageLocation]
        exact hget s.db id p hg
      · rw [Bool.not_eq_true] at hcond
        rw [if_neg (by rw [hcond]; exact Bool.false_ne_true)] at hret
        cases hret
        exact hget s.db id q hg

/-- Witness for C10: the stored row carries the locator, the record read
back through `GetByID` does not. -/
theorem C10_witness :
    pgRowPub.storage_location = "s3://passports/passports/p9.json" ∧
    Postgres.GetByID [pgRowPub] "p9" = some pgReadBack ∧
    pgReadBack.storageLocation = "" :=
  ⟨rfl, rfl, C10_getbyid_empty_storage_location.1 [pgRowPub] "p9" pgReadBack rfl⟩
